import Mathlib

/-!
Shallow embedding of the background task coordinator of
`egui-file-processor-test` (`src/main.rs`), together with theorems checking
the specification's claims about it.

The coordinator is `FileProcessingThread` (main.rs lines 51-119): a lifecycle
flag, a pending file list and a result list, each behind its own mutex.  We
model a coordinator state as a plain structure and each operation as a pure
function on it; the asynchronous worker spawned by `run` is modelled as a
separate step (`worker_finish`), and its interleaving with the caller's
operations as a step relation (`Step` / `Reachable`).

Machine details abstracted:
* `PathBuf` becomes `String` (opaque work-item identifier).
* `anyhow::Result<()>` becomes `Except String Unit`, the error carried as its
  display message (the only thing `get_results` and the shell ever read).
* `rayon`'s `par_iter().map(..).collect::<Vec<_>>()` preserves input order
  (an indexed parallel iterator collects in order), so the worker body is
  `List.map`.
* The per-item processing function is a parameter `f` of the worker step;
  the source instantiates it with the fixed placeholder `process_file`
  (main.rs lines 71-77), and the spec frames it as an injected collaborator.
-/

namespace FileProcessor

/-- A work item: an opaque identifier (a `PathBuf` rendered as a string). -/
abbrev Item := String

/-- The outcome of processing one item: `anyhow::Result<()>`, the error
carried as its display message. -/
abbrev Outcome := Except String Unit

/-- `ThreadState` (main.rs lines 43-49): the four-valued lifecycle flag. -/
inductive ThreadState where
  | Uninitialized
  | Initialized
  | Running
  | Done
deriving DecidableEq, Repr

/-- The position of a flag value along the lifecycle chain
`Uninitialized → Initialized → Running → Done` (used to state the
forward-only claims). -/
def ThreadState.idx : ThreadState → Nat
  | ThreadState.Uninitialized => 0
  | ThreadState.Initialized => 1
  | ThreadState.Running => 2
  | ThreadState.Done => 3

instance : DecidableEq Outcome := fun a b =>
  match a, b with
  | Except.ok _, Except.ok _ => isTrue rfl
  | Except.error e, Except.error e' =>
      if h : e = e' then isTrue (by rw [h]) else isFalse (by
        intro hc
        exact h (by cases hc; rfl))
  | Except.ok _, Except.error _ => isFalse (by intro hc; cases hc)
  | Except.error _, Except.ok _ => isFalse (by intro hc; cases hc)

/-- `FileProcessingThread` (main.rs lines 51-55): the coordinator's three
independently-locked cells, modelled as one record snapshot. -/
structure FileProcessingThread where
  state : ThreadState
  files_to_process : List Item
  processing_results : List Outcome
deriving DecidableEq, Repr

namespace FileProcessingThread

/-- `FileProcessingThread::new` (main.rs lines 58-64): flag `Uninitialized`,
empty file list, empty result list. -/
def new : FileProcessingThread :=
  { state := ThreadState.Uninitialized
    files_to_process := []
    processing_results := [] }

/-- `FileProcessingThread::set_file_list` (main.rs lines 66-69): overwrite the
pending file list wholesale, then set the flag to `Initialized`.  The result
list is not touched. -/
def set_file_list (t : FileProcessingThread) (file_list : List Item) :
    FileProcessingThread :=
  { t with files_to_process := file_list, state := ThreadState.Initialized }

/-- `FileProcessingThread::get_state` (main.rs lines 106-108): read the flag. -/
def get_state (t : FileProcessingThread) : ThreadState :=
  t.state

/-- `FileProcessingThread::is_in_state` (main.rs lines 79-81). -/
def is_in_state (t : FileProcessingThread) (s : ThreadState) : Bool :=
  t.get_state == s

/-- The synchronous part of `FileProcessingThread::run` (main.rs lines 83-93):
`assert!(self.is_in_state(Initialized))` — a panic, modelled as `none`, when
the flag is anything else — then the flag is set to `Running` and a worker
thread is spawned.  The spawned worker's effect is the separate step
`worker_finish` below. -/
def run_sync (t : FileProcessingThread) : Option FileProcessingThread :=
  if t.is_in_state ThreadState.Initialized then
    some { t with state := ThreadState.Running }
  else
    none

/-- The end-to-end effect of the worker thread spawned by `run` (main.rs
lines 94-103), parametrised by the per-item processing function `f`: it
snapshots the current file list, maps `f` over it in order (rayon's indexed
`par_iter().map(..).collect()` restores input order), stores the outcome
vector, and then sets the flag to `Done`.  The source performs the two
writes in two separate mutex critical sections; this coarse step is their
composition, and the mutex-granular version is `worker_publish` followed by
`worker_mark_done` below (see `LStep`). -/
def worker_finish (f : Item → Outcome) (t : FileProcessingThread) :
    FileProcessingThread :=
  { t with
    processing_results := t.files_to_process.map f
    state := ThreadState.Done }

/-- The worker's results write alone (main.rs lines 95-101): one critical
section that snapshots the file list and stores the complete outcome
vector for it; the flag is not touched here. -/
def worker_publish (f : Item → Outcome) (t : FileProcessingThread) :
    FileProcessingThread :=
  { t with processing_results := t.files_to_process.map f }

/-- The worker's flag write alone (main.rs line 102): a second, separate
critical section that flips the flag to `Done`; the result list is not
touched here. -/
def worker_mark_done (t : FileProcessingThread) : FileProcessingThread :=
  { t with state := ThreadState.Done }

/-- The per-element copy `get_results` performs (main.rs lines 113-116):
`Ok(_) => Ok(())`, `Err(e) => Err(anyhow!("{}", e))` — the fresh error's
message is the display string of the stored one, which is exactly the string
our `Outcome` carries. -/
def outcome_copy (res : Outcome) : Outcome :=
  match res with
  | Except.ok _ => Except.ok ()
  | Except.error e => Except.error e

/-- `FileProcessingThread::get_results` (main.rs lines 110-118): an
element-wise copy of the stored result vector. -/
def get_results (t : FileProcessingThread) : List Outcome :=
  t.processing_results.map outcome_copy

/-- `get_state` as a call on the coordinator: the value read together with
the post-state.  The source method takes `&self` and only reads the `state`
mutex (main.rs lines 106-108), so the post-state is the pre-state. -/
def get_state_call (t : FileProcessingThread) :
    ThreadState × FileProcessingThread :=
  (t.get_state, t)

/-- `get_results` as a call on the coordinator: the copied result vector
together with the post-state.  The source method takes `&self`, locks the
result mutex only to read and clone it (main.rs lines 110-118), so the
post-state is the pre-state — the call does not drain or reset anything. -/
def get_results_call (t : FileProcessingThread) :
    List Outcome × FileProcessingThread :=
  (t.get_results, t)

end FileProcessingThread

/-- The reference per-item processing function
`FileProcessingThread::process_file` (main.rs lines 71-77): sleep one second
(no observable effect in the model), then fail for every item with the fixed
message. -/
def process_file (file : Item) : Outcome :=
  Except.error ("Slept thread for 1 second for file " ++ reprStr file)

/-- One coarse step of the coordinator, with `f` the per-item processing
function the spawned worker applies: a `set_file_list` call (legal in any
state), a successful `run` call (its panic branch yields no step), or the
spawned worker completing (possible exactly while the flag is `Running`).
The worker case is the worker's end-to-end effect; its two separate mutex
critical sections are modelled individually by `LStep` below. -/
inductive Step (f : Item → Outcome) :
    FileProcessingThread → FileProcessingThread → Prop where
  | set_file_list (t : FileProcessingThread) (l : List Item) :
      Step f t (t.set_file_list l)
  | run (t t' : FileProcessingThread) :
      t.run_sync = some t' → Step f t t'
  | worker (t : FileProcessingThread) :
      t.state = ThreadState.Running → Step f t (t.worker_finish f)

/-- The coordinator states reachable from `new` by coordinator operations. -/
inductive Reachable (f : Item → Outcome) : FileProcessingThread → Prop where
  | new : Reachable f FileProcessingThread.new
  | step {t t' : FileProcessingThread} :
      Reachable f t → Step f t t' → Reachable f t'

/-- A full normal lifecycle on the item list `L` with per-item function `f`:
load the list into a fresh coordinator, call `run` (which cannot panic
there), and let the worker finish.  `none` would mean the `run` assertion
fired. -/
def full_run (f : Item → Outcome) (L : List Item) :
    Option FileProcessingThread :=
  (FileProcessingThread.new.set_file_list L).run_sync.map
    (fun t => t.worker_finish f)

/-- The part of `MyApp` state that `gather_processing_results` touches
(main.rs lines 36-41); the dropped-files set of the presentation shell is
irrelevant here and omitted. -/
structure MyApp where
  file_processing_thread : FileProcessingThread
  processing_btn_enabled : Bool
  result_msg : String

/-- `MyApp::gather_processing_results` (main.rs lines 206-224): drain the
outcomes, render either a success message or the newline-joined error
messages, then replace the coordinator with a fresh `new()` instance and
re-enable the processing button. -/
def MyApp.gather_processing_results (app : MyApp) : MyApp :=
  let results := app.file_processing_thread.get_results
  let errors := results.filterMap (fun r =>
    match r with
    | Except.ok _ => none
    | Except.error e => some e)
  { app with
    result_msg :=
      if errors.isEmpty then "Success!" else String.intercalate "\n" errors
    file_processing_thread := FileProcessingThread.new
    processing_btn_enabled := true }

/-- Scenario function for claim C5: fails for item `B` only. -/
def fails_for_B : Item → Outcome := fun s =>
  if s = "B" then Except.error "B failed" else Except.ok ()

/-- Concrete trace states used by the counterexamples: the coordinator after
loading `["A"]`. -/
def t_loaded : FileProcessingThread :=
  FileProcessingThread.new.set_file_list ["A"]

/-- The coordinator after `run` was called on `t_loaded` (flag `Running`). -/
def t_running : FileProcessingThread :=
  { state := ThreadState.Running
    files_to_process := ["A"]
    processing_results := [] }

/-- The coordinator after the worker finished (flag `Done`, one outcome). -/
def t_done : FileProcessingThread :=
  t_running.worker_finish process_file

/-- The coordinator after `set_file_list ["B"]` is called on `t_done`: the
flag is back to `Initialized` while the previous run's outcome is still in
the result list. -/
def t_stale : FileProcessingThread :=
  t_done.set_file_list ["B"]

/-- Helper: the per-element copy of `get_results` is extensionally the
identity on our outcome model. -/
theorem outcome_copy_id (res : Outcome) :
    FileProcessingThread.outcome_copy res = res := by
  cases res with
  | ok u => cases u; rfl
  | error e => rfl

/-- Helper: `get_results` returns the stored result list itself. -/
theorem get_results_eq (t : FileProcessingThread) :
    t.get_results = t.processing_results := by
  unfold FileProcessingThread.get_results
  have hcopy : FileProcessingThread.outcome_copy = id := by
    funext res
    exact outcome_copy_id res
  rw [hcopy, List.map_id]

/-- Helper: loading a list into a fresh coordinator and calling `run`
succeeds and yields the `Running` snapshot. -/
theorem run_sync_after_load (L : List Item) :
    (FileProcessingThread.new.set_file_list L).run_sync =
      some { state := ThreadState.Running
             files_to_process := L
             processing_results := [] } := by
  rfl

/-- Helper: `full_run` always completes, with the flag `Done`, the loaded
list kept, and the stored results the in-order image of `f` over it. -/
theorem full_run_eq (f : Item → Outcome) (L : List Item) :
    full_run f L =
      some { state := ThreadState.Done
             files_to_process := L
             processing_results := L.map f } := by
  unfold full_run
  rw [run_sync_after_load]
  rfl

/-- A coordinator state holding one success and one error outcome, used to
exercise the `get_results` copy. -/
def t_mixed : FileProcessingThread :=
  { state := ThreadState.Done
    files_to_process := ["x", "y"]
    processing_results := [Except.ok (), Except.error "boom"] }

/-- The coordinator state `full_run fails_for_B ["A", "B", "C"]` ends in. -/
def t_scenario : FileProcessingThread :=
  { state := ThreadState.Done
    files_to_process := ["A", "B", "C"]
    processing_results := ["A", "B", "C"].map fails_for_B }

/-- The coordinator state a second batch `["B2"]` ends in, used to exercise
the reset-between-batches claim. -/
def t_second : FileProcessingThread :=
  { state := ThreadState.Done
    files_to_process := ["B2"]
    processing_results := ["B2"].map process_file }

/-- An app state whose coordinator just finished a run, used to exercise
`gather_processing_results`. -/
def app0 : MyApp :=
  { file_processing_thread := t_done
    processing_btn_enabled := false
    result_msg := "" }

/-- Helper: `is_in_state` decides flag equality. -/
theorem is_in_state_iff (t : FileProcessingThread) (s : ThreadState) :
    t.is_in_state s = true ↔ t.state = s := by
  simp [FileProcessingThread.is_in_state, FileProcessingThread.get_state]

/-- Helper: a successful `run_sync` call requires the flag `Initialized` and
only changes the flag to `Running`. -/
theorem run_sync_some {t t' : FileProcessingThread}
    (h : t.run_sync = some t') :
    t.state = ThreadState.Initialized ∧
      t' = { t with state := ThreadState.Running } := by
  unfold FileProcessingThread.run_sync at h
  split at h
  · exact ⟨(is_in_state_iff t _).mp (by assumption),
      (Option.some_inj.mp h).symm⟩
  · cases h

/-- Helper: the coarse worker step is exactly the two mutex-granular
critical sections in sequence. -/
theorem worker_finish_decomposes (f : Item → Outcome)
    (t : FileProcessingThread) :
    t.worker_finish f = (t.worker_publish f).worker_mark_done :=
  rfl

/-- C9: a freshly constructed coordinator (`new()`) always starts with the
lifecycle flag `Uninitialized`, an empty pending item list, and an empty
result list. -/
theorem C9_new_starts_fresh :
    FileProcessingThread.new.state = ThreadState.Uninitialized ∧
      FileProcessingThread.new.files_to_process = [] ∧
      FileProcessingThread.new.processing_results = [] :=
  ⟨rfl, rfl, rfl⟩

/-- C7: `set_file_list` is callable in any state (it is a total function on
coordinator states), replaces the pending item list wholesale with exactly
the supplied list, sets the flag to `Initialized`, and leaves the result
list unchanged. -/
theorem C7_set_file_list_replaces_wholesale
    (t : FileProcessingThread) (L : List Item) :
    (t.set_file_list L).files_to_process = L ∧
      (t.set_file_list L).state = ThreadState.Initialized ∧
      (t.set_file_list L).processing_results = t.processing_results :=
  ⟨rfl, rfl, rfl⟩

/-- C3: calling `run` while the flag is not `Initialized` hits the
`assert!` (modelled as `none`) and never runs the stale or empty list, and
under the precondition flag = `Initialized` the fatal branch is unreachable
and `run` sets the flag to `Running`. -/
theorem C3_run_asserts_initialized (t : FileProcessingThread) :
    (t.run_sync = none ↔ t.state ≠ ThreadState.Initialized) ∧
      (t.state = ThreadState.Initialized →
        t.run_sync = some { t with state := ThreadState.Running }) := by
  have hpos : t.state = ThreadState.Initialized →
      t.run_sync = some { t with state := ThreadState.Running } := by
    intro heq
    unfold FileProcessingThread.run_sync
    rw [if_pos ((is_in_state_iff t _).mpr heq)]
  refine ⟨⟨?_, ?_⟩, hpos⟩
  · intro hnone heq
    rw [hpos heq] at hnone
    cases hnone
  · intro hne
    unfold FileProcessingThread.run_sync
    rw [if_neg (fun hb => hne ((is_in_state_iff t _).mp hb))]

/-- Witness for C3 at concrete states: a fresh coordinator panics on `run`,
and a loaded one transitions to `Running`. -/
theorem C3_witness :
    FileProcessingThread.new.run_sync = none ∧
      t_loaded.run_sync = some { t_loaded with state := ThreadState.Running } :=
  ⟨(C3_run_asserts_initialized FileProcessingThread.new).1.mpr (by decide),
   (C3_run_asserts_initialized t_loaded).2 (by decide)⟩

/-- C8: `get_state` and `get_results` are pure reads: the post-state of
either call is the pre-state (flag, pending item list and stored result
list all unchanged), so repeating either call without an intervening
mutation returns the same value. -/
theorem C8_reads_idempotent (t : FileProcessingThread) :
    t.get_state_call.2 = t ∧
      t.get_results_call.2 = t ∧
      t.get_state_call.2.get_state_call.1 = t.get_state_call.1 ∧
      t.get_results_call.2.get_results_call.1 = t.get_results_call.1 ∧
      t.get_results_call.2.state = t.state ∧
      t.get_results_call.2.files_to_process = t.files_to_process ∧
      t.get_results_call.2.processing_results = t.processing_results :=
  ⟨rfl, rfl, rfl, rfl, rfl, rfl, rfl⟩

/-- C10: `get_results` is an element-wise copy of the stored outcome list:
same length, the i-th element is a success marker exactly when the stored
one is, and an error's returned message equals the stored error's display
message (which is the string our `Outcome` model carries). -/
theorem C10_get_results_elementwise_copy
    (t : FileProcessingThread) (i : Nat) :
    t.get_results.length = t.processing_results.length ∧
      (t.processing_results.get? i = some (Except.ok ()) →
        t.get_results.get? i = some (Except.ok ())) ∧
      (∀ e : String,
        t.processing_results.get? i = some (Except.error e) →
          t.get_results.get? i = some (Except.error e)) := by
  rw [get_results_eq]
  exact ⟨rfl, fun h => h, fun e h => h⟩

/-- Witness for C10 on a state holding one success and one error. -/
theorem C10_witness :
    t_mixed.get_results.length = t_mixed.processing_results.length ∧
      t_mixed.get_results.get? 0 = some (Except.ok ()) ∧
      t_mixed.get_results.get? 1 = some (Except.error "boom") :=
  ⟨(C10_get_results_elementwise_copy t_mixed 0).1,
   (C10_get_results_elementwise_copy t_mixed 0).2.1 rfl,
   (C10_get_results_elementwise_copy t_mixed 1).2.2 "boom" rfl⟩

/-- C1: for every item list `L` of length N (including N = 0) and every
per-item function `f`, the full lifecycle (`set_file_list`, `run`, worker
completion) reaches `Done`, and `get_results` then returns exactly N
outcomes, the i-th being `f` applied to the i-th submitted item — the
parallel fan-out never reorders results relative to input position. -/
theorem C1_results_length_and_order
    (f : Item → Outcome) (L : List Item) :
    ∃ t : FileProcessingThread,
      full_run f L = some t ∧
        t.get_state = ThreadState.Done ∧
        t.get_results.length = L.length ∧
        ∀ i : Nat, t.get_results.get? i = (L.get? i).map f := by
  refine ⟨_, full_run_eq f L, rfl, ?_, ?_⟩
  · rw [get_results_eq]
    exact List.length_map L f
  · intro i
    rw [get_results_eq]
    exact List.get?_map f L i

/-- C5: a single item's failure never aborts the batch — after a full
lifecycle every position of the submitted list has an outcome, each the
captured result of the per-item function (success or error, as data); and
on the concrete scenario `["A", "B", "C"]` with a function failing only on
`"B"`, the outcomes after `Done` are success, the `"B failed"` error, and
success, in that order. -/
theorem C5_failure_captured_as_data
    (f : Item → Outcome) (L : List Item) :
    (∀ t : FileProcessingThread, full_run f L = some t →
        ∀ i : Nat, i < L.length →
          ∃ o : Outcome, t.get_results.get? i = some o ∧
            (L.get? i).map f = some o) ∧
      (∃ t : FileProcessingThread,
        full_run fails_for_B ["A", "B", "C"] = some t ∧
          t.get_results =
            [Except.ok (), Except.error "B failed", Except.ok ()]) := by
  constructor
  · intro t ht i hi
    rw [full_run_eq] at ht
    cases Option.some_inj.mp ht
    rw [get_results_eq]
    refine ⟨f (L.get ⟨i, hi⟩), ?_, ?_⟩
    · rw [List.get?_map, List.get?_eq_get hi]
      rfl
    · rw [List.get?_eq_get hi]
      rfl
  · refine ⟨t_scenario, full_run_eq _ _, ?_⟩
    rw [get_results_eq]
    decide

/-- Witness for C5: the generic part applied at the concrete scenario,
position 1 (the failing item `"B"`). -/
theorem C5_witness :
    ∃ o : Outcome, t_scenario.get_results.get? 1 = some o ∧
      ((["A", "B", "C"] : List Item).get? 1).map fails_for_B = some o :=
  (C5_failure_captured_as_data fails_for_B ["A", "B", "C"]).1
    t_scenario (full_run_eq _ _) 1 (by decide)

/-- C4 (amended): every coordinator step other than `set_file_list` moves
the flag forward along the chain `Uninitialized → Initialized → Running →
Done`; the exception is `set_file_list`, which sets the flag to
`Initialized` from any state (moving backward when called in `Running` or
`Done`). -/
theorem C4_amended_forward_except_set_file_list
    (f : Item → Outcome) (t t' : FileProcessingThread)
    (h : Step f t t') :
    t.state.idx ≤ t'.state.idx ∨
      (t'.state = ThreadState.Initialized ∧
        ∃ L : List Item, t' = t.set_file_list L) := by
  cases h with
  | set_file_list l => exact Or.inr ⟨rfl, l, rfl⟩
  | run t'' hrun =>
      obtain ⟨hs, ht'⟩ := run_sync_some hrun
      refine Or.inl ?_
      rw [ht', hs]
      show (1 : Nat) ≤ 2
      decide
  | worker hw =>
      refine Or.inl ?_
      rw [hw]
      show (2 : Nat) ≤ 3
      decide

/-- Witness for C4 (amended) on the concrete `run` step from the loaded
state to the running state. -/
theorem C4_amended_witness :
    t_loaded.state.idx ≤ t_running.state.idx ∨
      (t_running.state = ThreadState.Initialized ∧
        ∃ L : List Item, t_running = t_loaded.set_file_list L) :=
  C4_amended_forward_except_set_file_list process_file t_loaded t_running
    (Step.run t_loaded t_running rfl)

/-- Counterexample to C4 as stated: the `Done` state of a completed run is
reachable, and calling `set_file_list ["B"]` on it is a coordinator step on
the same instance that moves the flag backward, from `Done` to
`Initialized` — so the observed flag sequence is not a forward subsequence
of the chain. -/
theorem C4_counterexample :
    Reachable process_file t_done ∧
      Step process_file t_done t_stale ∧
      t_done.state = ThreadState.Done ∧
      t_stale.state = ThreadState.Initialized ∧
      t_stale.state.idx < t_done.state.idx := by
  refine ⟨?_, Step.set_file_list t_done ["B"], rfl, rfl, by decide⟩
  exact Reachable.step
    (Reachable.step
      (Reachable.step Reachable.new
        (Step.set_file_list FileProcessingThread.new ["A"]))
      (Step.run t_loaded t_running rfl))
    (Step.worker t_running rfl)

/-- C6: `gather_processing_results` replaces the coordinator by a fresh
`new()` instance (whose result list is empty), and a second batch `L2` run
to completion on any coordinator yields exactly `L2.map f` — determined by
the second batch alone, so no outcome of the first batch appears in the
second batch's result list. -/
theorem C6_reset_prevents_leak
    (app : MyApp) (f : Item → Outcome) (L2 : List Item) :
    app.gather_processing_results.file_processing_thread =
        FileProcessingThread.new ∧
      app.gather_processing_results.file_processing_thread.get_results
        = [] ∧
      (∀ t : FileProcessingThread, full_run f L2 = some t →
        t.get_results = L2.map f) := by
  refine ⟨rfl, rfl, ?_⟩
  intro t ht
  rw [full_run_eq] at ht
  cases Option.some_inj.mp ht
  rw [get_results_eq]

/-- Witness for C6 at a concrete app state and a concrete second batch. -/
theorem C6_witness :
    app0.gather_processing_results.file_processing_thread =
        FileProcessingThread.new ∧
      t_second.get_results = ["B2"].map process_file :=
  ⟨(C6_reset_prevents_leak app0 process_file ["B2"]).1,
   (C6_reset_prevents_leak app0 process_file ["B2"]).2.2
     t_second (full_run_eq _ _)⟩

end FileProcessor
